import Mathlib

/-!
Shallow embedding of the openfigi-go request-validation core
(`openfigi.go`, `builder.go`): the `BaseItem` / `MappingItem` value
objects, their fail-fast `validate` functions, the fluent builders'
`Build` step, and the pagination `Next` logic of `SearchResponse` /
`FilterResponse`.

Go `error` values are modelled by the inductive `GoError`, one
constructor per distinct `fmt.Errorf` site; `nil` is `Option.none`.
Go `float64` bounds of numeric intervals are modelled by `GoFloat`
(negative infinity, a finite rational, positive infinity — the non-NaN
values relevant to the ordering checks of `interval.validate`).
The generated enumerated-value tables (package `constants`, produced by
`go generate`, absent from the sources) are modelled, as the spec
describes them, as opaque membership oracles: a `RefSets` record of
`String → Bool` capabilities passed to `validate`.
-/

namespace OpenFIGI

/-- Model of the non-NaN `float64` values produced by `intepretRange[float64]`
and compared by the numeric branch of `interval.validate`:
`math.Inf(-1)`, a finite value (as a rational), `math.Inf(1)`. -/
inductive GoFloat : Type
  | negInf : GoFloat
  | fin : ℚ → GoFloat
  | posInf : GoFloat
deriving DecidableEq

/-- The `>` comparison of Go `float64` (NaN-free), used as `start > end`
in `interval.validate`: here `GoFloat.lt a b` means `a < b`. -/
def GoFloat.lt : GoFloat → GoFloat → Bool
  | .negInf, .negInf => false
  | .negInf, _ => true
  | .fin _, .negInf => false
  | .fin a, .fin b => decide (a < b)
  | .fin _, .posInf => true
  | .posInf, _ => false

/-- Go's `type interval[T constraints.Ordered] [2]T`: a two-element array,
`lo` is index 0 (`start`), `hi` is index 1 (`end`). -/
structure interval (T : Type) : Type where
  lo : T
  hi : T
deriving DecidableEq

/-- One constructor per distinct `fmt.Errorf` site of the validation and
pagination code, carrying the data the message interpolates. -/
inductive GoError : Type
  | invalidEnum : String → GoError
  | exchMicConflict : GoError
  | intervalNullNull : GoError
  | badNumInterval : GoFloat → GoFloat → GoError
  | badDateFormat : String → GoError
  | badDateInterval : String → String → GoError
  | expirationOnlyForOption : GoError
  | maturityOnlyForPool : GoError
  | invalidIdType : String → GoError
  | missingSecurityType2 : GoError
  | noMoreResults : GoError
deriving DecidableEq

/-- Modelled from the spec: the generated enumerated-value tables
(`exchCodeSet`, `micCodeSet`, …, `idTypeSet` of the `constants` package,
produced by `go generate` and absent from the sources) are, per spec §6,
"a capability `Has(value string) bool` per constrained field name"
treated as opaque oracles. -/
structure RefSets : Type where
  exchCode : String → Bool
  micCode : String → Bool
  currency : String → Bool
  marketSecDes : String → Bool
  securityType : String → Bool
  securityType2 : String → Bool
  stateCode : String → Bool
  idType : String → Bool

/-- A small concrete instance of the oracles, holding the constants the
repository's own tests exercise (`US`, `AU`, `ADRK`, `BMTF`, `AUD`,
`Comdty`, `Option`, `Pool`, `AC`, `TICKER`, `BASE_TICKER`,
`ID_EXCH_SYMBOL`); used to evaluate the theorems on concrete inputs. -/
def sampleSets : RefSets where
  exchCode := fun s => s = "US" || s = "AU"
  micCode := fun s => s = "ADRK" || s = "BMTF"
  currency := fun s => s = "AUD"
  marketSecDes := fun s => s = "Comdty"
  securityType := fun s => s = "Option"
  securityType2 := fun s => s = "Option" || s = "Pool" || s = "Common Stock"
  stateCode := fun s => s = "AC"
  idType := fun s => s = "TICKER" || s = "BASE_TICKER" || s = "ID_EXCH_SYMBOL"

/-- `BaseItem` of `openfigi.go`: optional string fields (empty = unset),
optional interval pointers (`none` = nil). -/
structure BaseItem : Type where
  ExchCode : String
  MicCode : String
  Currency : String
  MarketSecDes : String
  SecurityType : String
  SecurityType2 : String
  IncludeUnlistedEquities : Bool
  OptionType : String
  Strike : Option (interval GoFloat)
  ContractSize : Option (interval GoFloat)
  Coupon : Option (interval GoFloat)
  Expiration : Option (interval String)
  Maturity : Option (interval String)
  StateCode : String
deriving DecidableEq

/-- The Go zero value `BaseItem{}`. -/
def BaseItem.zero : BaseItem where
  ExchCode := ""
  MicCode := ""
  Currency := ""
  MarketSecDes := ""
  SecurityType := ""
  SecurityType2 := ""
  IncludeUnlistedEquities := false
  OptionType := ""
  Strike := none
  ContractSize := none
  Coupon := none
  Expiration := none
  Maturity := none
  StateCode := ""

/-- `intepretRange[float64]`: a `nil` slot becomes `math.Inf(-1)` at
index 0 and `math.Inf(1)` at index 1. -/
def intepretRangeNum (a b : Option ℚ) : interval GoFloat where
  lo := match a with | none => .negInf | some q => .fin q
  hi := match b with | none => .posInf | some q => .fin q

/-- `intepretRange[string]`: a `nil` slot becomes the empty string. -/
def intepretRangeDate (a b : Option String) : interval String where
  lo := match a with | none => "" | some s => s
  hi := match b with | none => "" | some s => s

/-- Leap-year rule used by Go's date validation. -/
def isLeap (y : ℕ) : Bool := (y % 4 == 0 && y % 100 != 0) || y % 400 == 0

/-- Days in a month, leap years included. -/
def daysInMonth (y m : ℕ) : ℕ :=
  if m == 2 then (if isLeap y then 29 else 28)
  else if m == 4 || m == 6 || m == 9 || m == 11 then 30
  else 31

/-- Numeric value of a decimal digit character. -/
def digitVal (c : Char) : ℕ := c.toNat - 48

/-- Model of `time.Parse(time.DateOnly, s)` for the documented
`YYYY-MM-DD` calendar-date format: exactly ten characters
`dddd-dd-dd`, month in 1..12, day in 1..daysInMonth; `none` models a
parse error. -/
def parseDateOnly (s : String) : Option (ℕ × ℕ × ℕ) :=
  match s.toList with
  | [y1, y2, y3, y4, s1, m1, m2, s2, d1, d2] =>
    if y1.isDigit && y2.isDigit && y3.isDigit && y4.isDigit &&
        s1 == '-' && m1.isDigit && m2.isDigit && s2 == '-' &&
        d1.isDigit && d2.isDigit then
      let y := 1000 * digitVal y1 + 100 * digitVal y2 + 10 * digitVal y3 + digitVal y4
      let m := 10 * digitVal m1 + digitVal m2
      let d := 10 * digitVal d1 + digitVal d2
      if 1 ≤ m && m ≤ 12 && 1 ≤ d && d ≤ daysInMonth y m then some (y, m, d)
      else none
    else none
  | _ => none

/-- `time.Time.After` for two dates parsed at midnight UTC:
lexicographic strictly-greater on (year, month, day). -/
def dateAfter : ℕ × ℕ × ℕ → ℕ × ℕ × ℕ → Bool
  | (y1, m1, d1), (y2, m2, d2) =>
    y1 > y2 || (y1 == y2 && (m1 > m2 || (m1 == m2 && d1 > d2)))

/-- The `float64` branch of `interval.validate`: `[-Inf, +Inf]` is
rejected as `[null, null]`; otherwise `start > end` is rejected. -/
def numIntervalValidate (iv : interval GoFloat) : Option GoError :=
  if iv.lo = GoFloat.negInf ∧ iv.hi = GoFloat.posInf then some .intervalNullNull
  else if GoFloat.lt iv.hi iv.lo then some (.badNumInterval iv.lo iv.hi)
  else none

/-- The `string` branch of `interval.validate`: `["", ""]` is rejected
as `[null, null]`; a populated bound that fails `time.Parse` is a date
format error (low bound checked first); when both bounds are populated
(and hence parsed), `start.After(end)` is rejected. -/
def dateIntervalValidate (iv : interval String) : Option GoError :=
  if iv.lo = "" ∧ iv.hi = "" then some .intervalNullNull
  else if iv.lo ≠ "" ∧ parseDateOnly iv.lo = none then some (.badDateFormat iv.lo)
  else if iv.hi ≠ "" ∧ parseDateOnly iv.hi = none then some (.badDateFormat iv.hi)
  else if iv.lo ≠ "" ∧ iv.hi ≠ "" ∧
      (match parseDateOnly iv.lo, parseDateOnly iv.hi with
       | some a, some b => dateAfter a b
       | _, _ => false) = true then some (.badDateInterval iv.lo iv.hi)
  else none

/-- First error of the interval loop of `BaseItem.validate` (the loop
skips `nil` pointers and returns the first failing interval's error). -/
def firstErr : List (Option GoError) → Option GoError
  | [] => none
  | some e :: _ => some e
  | none :: rest => firstErr rest

/-- Lift an interval validator over an optional (`nil`-able) interval. -/
def optVal {T : Type} (f : interval T → Option GoError) : Option (interval T) → Option GoError
  | none => none
  | some iv => f iv

/-- The interval loop of `BaseItem.validate`, in source order:
Strike, ContractSize, Coupon, Expiration, Maturity. -/
def intervalsErr (item : BaseItem) : Option GoError :=
  firstErr [optVal numIntervalValidate item.Strike,
            optVal numIntervalValidate item.ContractSize,
            optVal numIntervalValidate item.Coupon,
            optVal dateIntervalValidate item.Expiration,
            optVal dateIntervalValidate item.Maturity]

/-- One guard of the enum `switch`: the field is populated and its value
is not a member of its reference set. -/
def badEnum (v : String) (has : String → Bool) : Bool := v != "" && !(has v)

/-- The enum `switch` of `BaseItem.validate` (first seven guards, in
source order): the first populated field whose value is outside its
reference set determines the error. -/
def enumErr (S : RefSets) (item : BaseItem) : Option GoError :=
  if badEnum item.ExchCode S.exchCode then some (.invalidEnum "exchCode")
  else if badEnum item.MicCode S.micCode then some (.invalidEnum "micCode")
  else if badEnum item.Currency S.currency then some (.invalidEnum "currency")
  else if badEnum item.MarketSecDes S.marketSecDes then some (.invalidEnum "marketSecDes")
  else if badEnum item.SecurityType S.securityType then some (.invalidEnum "securityType")
  else if badEnum item.SecurityType2 S.securityType2 then some (.invalidEnum "securityType2")
  else if badEnum item.StateCode S.stateCode then some (.invalidEnum "stateCode")
  else none

/-- `BaseItem.validate` of `openfigi.go`, lines 123-167: the enum
`switch`, then the exchCode/micCode exclusivity check, then the
interval loop, then the expiration/maturity conditional checks —
fail-fast, first error wins. -/
def BaseItem.validate (S : RefSets) (item : BaseItem) : Option GoError :=
  match enumErr S item with
  | some e => some e
  | none =>
    if item.ExchCode ≠ "" ∧ item.MicCode ≠ "" then some .exchMicConflict
    else match intervalsErr item with
      | some e => some e
      | none =>
        if ¬(item.SecurityType2 = "Option") ∧ item.Expiration.isSome then
          some .expirationOnlyForOption
        else if ¬(item.SecurityType2 = "Pool") ∧ item.Maturity.isSome then
          some .maturityOnlyForPool
        else none

/-- `MappingItem`: an embedded `BaseItem` plus identifier type and value
(`idValue` is `any` on the wire, serialized as JSON; modelled as a
string payload, which `validate` never inspects). -/
structure MappingItem : Type where
  base : BaseItem
  idType : String
  idValue : String
deriving DecidableEq

/-- `MappingItem.validate` of `openfigi.go`, lines 204-219: delegate to
the embedded `BaseItem.validate`, then membership-test `idType`, then
the `BASE_TICKER` / `ID_EXCH_SYMBOL` conditional requirement on
`securityType2`. -/
def MappingItem.validate (S : RefSets) (m : MappingItem) : Option GoError :=
  match m.base.validate S with
  | some e => some e
  | none =>
    if ¬(S.idType m.idType = true) then some (.invalidIdType m.idType)
    else if (m.idType = "BASE_TICKER" ∨ m.idType = "ID_EXCH_SYMBOL") ∧
        m.base.SecurityType2 = "" then some .missingSecurityType2
    else none

/-- `BaseItemBuilder`: a mutable accumulator holding a `BaseItem`. -/
structure BaseItemBuilder : Type where
  item : BaseItem
deriving DecidableEq

/-- `BaseItem{}.GetBuilder()`: a fresh builder over the zero item
(the value receiver is ignored by the Go method). -/
def BaseItem.GetBuilder (_ : BaseItem) : BaseItemBuilder := ⟨BaseItem.zero⟩

/-- `BaseItemBuilder.Build` (`builder.go` lines 106-110), with the
pointer receiver's state passed explicitly: the result triple is
(builder state after the call, returned item, returned error). The Go
body assigns only to its named results (`item = b.item;
err = item.validate()`), never to `b.item`, so the post state is `b`. -/
def BaseItemBuilder.Build (S : RefSets) (b : BaseItemBuilder) :
    BaseItemBuilder × BaseItem × Option GoError :=
  (b, b.item, b.item.validate S)

/-- `MappingItemBuilder`: an embedded `BaseItemBuilder` plus the partial
`MappingItem` holding `idType` / `idValue`. -/
structure MappingItemBuilder : Type where
  base : BaseItemBuilder
  item : MappingItem
deriving DecidableEq

/-- `MappingItem{}.GetBuilder(idType, value)`. -/
def MappingItem.GetBuilder (_ : MappingItem) (idType value : String) : MappingItemBuilder :=
  ⟨BaseItem.zero.GetBuilder, ⟨BaseItem.zero, idType, value⟩⟩

/-- `MappingItemBuilder.Build` (`builder.go` lines 119-125), with the
pointer receiver's state passed explicitly: the Go body first assigns
`m.item.BaseItem = m.BaseItemBuilder.item` (mutating the builder), then
returns `m.item` and `m.item.validate()`. -/
def MappingItemBuilder.Build (S : RefSets) (m : MappingItemBuilder) :
    MappingItemBuilder × MappingItem × Option GoError :=
  let m2 : MappingItemBuilder := ⟨m.base, { m.item with base := m.base.item }⟩
  (m2, m2.item, m2.item.validate S)

/-- `FIGIObject`: one decoded result record. -/
structure FIGIObject : Type where
  FIGI : String
  SecurityType : String
  MarketSector : String
  Ticker : String
  Name : String
  UniqueID : String
  ExchangeCode : String
  ShareClassFIGI : String
  CompositeFIGI : String
  SecurityType2 : String
  SecurityDescription : String
  Metadata : String
deriving DecidableEq

/-- `SearchResponse`: one result page, its continuation cursor
(`NextHash`, JSON `next`), and the retained originating item and query
used by `Next()`. -/
structure SearchResponse : Type where
  Data : List FIGIObject
  Error : String
  NextHash : String
  baseitem : BaseItem
  query : String
deriving DecidableEq

/-- The Go zero value `SearchResponse{}` returned by `Next()` on an
exhausted cursor. -/
def SearchResponse.zero : SearchResponse where
  Data := []
  Error := ""
  NextHash := ""
  baseitem := BaseItem.zero
  query := ""

/-- `FilterResponse`: a `SearchResponse` plus the total count. -/
structure FilterResponse : Type where
  search : SearchResponse
  Total : Int
deriving DecidableEq

/-- The Go zero value `FilterResponse{}`. -/
def FilterResponse.zero : FilterResponse where
  search := SearchResponse.zero
  Total := 0

/-- The `/search` transport boundary (`postBaseItem[SearchResponse]`):
item, query, start cursor in; decoded response and error out. Modelled
as an oracle, since the network is outside the embedding. -/
def SearchTransport : Type := BaseItem → String → String → SearchResponse × Option GoError

/-- The `/filter` transport boundary (`postBaseItem[FilterResponse]`). -/
def FilterTransport : Type := BaseItem → String → String → FilterResponse × Option GoError

/-- `BaseItem.Search` (`openfigi.go` lines 343-349): call the transport,
then stamp the originating item and query onto the response (also when
the transport errored). -/
def BaseItem.Search (t : SearchTransport) (item : BaseItem) (query start : String) :
    SearchResponse × Option GoError :=
  let r := t item query start
  ({ r.1 with baseitem := item, query := query }, r.2)

/-- `BaseItem.Filter` (`openfigi.go` lines 358-364): as `Search`, the
stamped fields living on the embedded `SearchResponse`. -/
def BaseItem.Filter (t : FilterTransport) (item : BaseItem) (query start : String) :
    FilterResponse × Option GoError :=
  let r := t item query start
  ({ r.1 with search := { r.1.search with baseitem := item, query := query } }, r.2)

/-- `SearchResponse.Next` (`openfigi.go` lines 351-356): an empty cursor
yields the zero response and the "no more results" error without
touching the transport; otherwise replay `Search` with the retained
item and query and the cursor as `start`. -/
def SearchResponse.Next (t : SearchTransport) (r : SearchResponse) :
    SearchResponse × Option GoError :=
  if r.NextHash = "" then (SearchResponse.zero, some .noMoreResults)
  else r.baseitem.Search t r.query r.NextHash

/-- `FilterResponse.Next` (`openfigi.go` lines 366-371). -/
def FilterResponse.Next (t : FilterTransport) (r : FilterResponse) :
    FilterResponse × Option GoError :=
  if r.search.NextHash = "" then (FilterResponse.zero, some .noMoreResults)
  else r.search.baseitem.Filter t r.search.query r.search.NextHash

/-- The value an enumerated field name selects from a `BaseItem`
(the seven fields membership-tested by the enum `switch`); an unknown
name selects the empty string. -/
def enumFieldVal (item : BaseItem) (f : String) : String :=
  if f = "exchCode" then item.ExchCode
  else if f = "micCode" then item.MicCode
  else if f = "currency" then item.Currency
  else if f = "marketSecDes" then item.MarketSecDes
  else if f = "securityType" then item.SecurityType
  else if f = "securityType2" then item.SecurityType2
  else if f = "stateCode" then item.StateCode
  else ""

/-- The reference set an enumerated field name selects from the oracles;
an unknown name selects the everything-accepting oracle. -/
def enumHas (S : RefSets) (f : String) : String → Bool :=
  if f = "exchCode" then S.exchCode
  else if f = "micCode" then S.micCode
  else if f = "currency" then S.currency
  else if f = "marketSecDes" then S.marketSecDes
  else if f = "securityType" then S.securityType
  else if f = "securityType2" then S.securityType2
  else if f = "stateCode" then S.stateCode
  else fun _ => true

/-- Field `f` of `item` is populated and outside its reference set. -/
@[reducible] def enumBadAt (S : RefSets) (item : BaseItem) (f : String) : Prop :=
  enumFieldVal item f ≠ "" ∧ enumHas S f (enumFieldVal item f) = false

/-- All seven guards of the enum `switch` pass. -/
@[reducible] def EnumOk (S : RefSets) (item : BaseItem) : Prop :=
  badEnum item.ExchCode S.exchCode = false ∧
  badEnum item.MicCode S.micCode = false ∧
  badEnum item.Currency S.currency = false ∧
  badEnum item.MarketSecDes S.marketSecDes = false ∧
  badEnum item.SecurityType S.securityType = false ∧
  badEnum item.SecurityType2 S.securityType2 = false ∧
  badEnum item.StateCode S.stateCode = false

/-- All validation rules of `BaseItem.validate` pass: enum membership,
exchCode/micCode exclusivity, interval validity, and the
expiration/maturity conditional requirements. -/
@[reducible] def ValidOk (S : RefSets) (item : BaseItem) : Prop :=
  EnumOk S item ∧
  ¬(item.ExchCode ≠ "" ∧ item.MicCode ≠ "") ∧
  intervalsErr item = none ∧
  (item.Expiration.isSome = true → item.SecurityType2 = "Option") ∧
  (item.Maturity.isSome = true → item.SecurityType2 = "Pool")

/-- A guarded error chain yields `none` exactly when the guard is false
and the rest yields `none`. -/
theorem ite_some_none_iff {c : Prop} [Decidable c] {e : GoError} {rest : Option GoError} :
    (if c then some e else rest) = none ↔ ¬c ∧ rest = none := by
  split_ifs with h <;> simp [h]

/-- The enum `switch` passes exactly when each of its guards is false. -/
theorem enumErr_none_iff (S : RefSets) (item : BaseItem) :
    enumErr S item = none ↔ EnumOk S item := by
  unfold enumErr EnumOk
  simp only [ite_some_none_iff, Bool.not_eq_true, and_true]

/-- `BaseItem.validate` succeeds exactly when every rule passes. -/
theorem validate_none_iff (S : RefSets) (item : BaseItem) :
    item.validate S = none ↔ ValidOk S item := by
  unfold BaseItem.validate ValidOk
  rw [← enumErr_none_iff]
  rcases hE : enumErr S item with _ | e
  · rcases hI : intervalsErr item with _ | e
    · simp only [ite_some_none_iff, hI, Bool.not_eq_true, and_true]
      constructor
      · rintro ⟨h8, h9, h10⟩
        exact ⟨trivial, h8, trivial, fun hs => by tauto, fun hs => by tauto⟩
      · rintro ⟨-, h8, -, h9, h10⟩
        exact ⟨h8, by tauto, by tauto⟩
    · simp only [hI]
      split_ifs <;> simp
  · simp

/-- A guard of the enum `switch` fires exactly on a populated value
outside the reference set. -/
theorem badEnum_true_iff {v : String} {has : String → Bool} :
    badEnum v has = true ↔ v ≠ "" ∧ has v = false := by
  simp [badEnum, bne_iff_ne, Bool.and_eq_true, Bool.not_eq_true']

/-- `enumBadAt` at each of the seven field names coincides with the
corresponding guard of the enum `switch`. -/
theorem enumBadAt_names (S : RefSets) (item : BaseItem) :
    (enumBadAt S item "exchCode" ↔ badEnum item.ExchCode S.exchCode = true) ∧
    (enumBadAt S item "micCode" ↔ badEnum item.MicCode S.micCode = true) ∧
    (enumBadAt S item "currency" ↔ badEnum item.Currency S.currency = true) ∧
    (enumBadAt S item "marketSecDes" ↔ badEnum item.MarketSecDes S.marketSecDes = true) ∧
    (enumBadAt S item "securityType" ↔ badEnum item.SecurityType S.securityType = true) ∧
    (enumBadAt S item "securityType2" ↔ badEnum item.SecurityType2 S.securityType2 = true) ∧
    (enumBadAt S item "stateCode" ↔ badEnum item.StateCode S.stateCode = true) := by
  unfold enumBadAt enumFieldVal enumHas
  refine ⟨?_, ?_, ?_, ?_, ?_, ?_, ?_⟩ <;> simp [badEnum_true_iff]

/-- When every guard of the enum `switch` passes, no field is populated
with a value outside its reference set. -/
theorem not_enumBadAt_of_enumOk {S : RefSets} {item : BaseItem}
    (h : EnumOk S item) : ∀ f, ¬ enumBadAt S item f := by
  obtain ⟨h1, h2, h3, h4, h5, h6, h7⟩ := h
  intro f
  by_cases e1 : f = "exchCode"
  · subst e1; rw [(enumBadAt_names S item).1]; simp [h1]
  by_cases e2 : f = "micCode"
  · subst e2; rw [(enumBadAt_names S item).2.1]; simp [h2]
  by_cases e3 : f = "currency"
  · subst e3; rw [(enumBadAt_names S item).2.2.1]; simp [h3]
  by_cases e4 : f = "marketSecDes"
  · subst e4; rw [(enumBadAt_names S item).2.2.2.1]; simp [h4]
  by_cases e5 : f = "securityType"
  · subst e5; rw [(enumBadAt_names S item).2.2.2.2.1]; simp [h5]
  by_cases e6 : f = "securityType2"
  · subst e6; rw [(enumBadAt_names S item).2.2.2.2.2.1]; simp [h6]
  by_cases e7 : f = "stateCode"
  · subst e7; rw [(enumBadAt_names S item).2.2.2.2.2.2]; simp [h7]
  unfold enumBadAt enumFieldVal
  rw [if_neg e1, if_neg e2, if_neg e3, if_neg e4, if_neg e5, if_neg e6, if_neg e7]
  simp

/-- If some field is populated with a value outside its reference set,
the enum `switch` reports such a field (the first one in source order). -/
theorem enumErr_of_bad {S : RefSets} {item : BaseItem}
    (hbad : ∃ f, enumBadAt S item f) :
    ∃ f, enumErr S item = some (.invalidEnum f) ∧ enumBadAt S item f := by
  by_cases h1 : badEnum item.ExchCode S.exchCode = true
  · exact ⟨"exchCode", by unfold enumErr; simp [h1],
      (enumBadAt_names S item).1.mpr h1⟩
  by_cases h2 : badEnum item.MicCode S.micCode = true
  · exact ⟨"micCode", by unfold enumErr; simp [h1, h2],
      (enumBadAt_names S item).2.1.mpr h2⟩
  by_cases h3 : badEnum item.Currency S.currency = true
  · exact ⟨"currency", by unfold enumErr; simp [h1, h2, h3],
      (enumBadAt_names S item).2.2.1.mpr h3⟩
  by_cases h4 : badEnum item.MarketSecDes S.marketSecDes = true
  · exact ⟨"marketSecDes", by unfold enumErr; simp [h1, h2, h3, h4],
      (enumBadAt_names S item).2.2.2.1.mpr h4⟩
  by_cases h5 : badEnum item.SecurityType S.securityType = true
  · exact ⟨"securityType", by unfold enumErr; simp [h1, h2, h3, h4, h5],
      (enumBadAt_names S item).2.2.2.2.1.mpr h5⟩
  by_cases h6 : badEnum item.SecurityType2 S.securityType2 = true
  · exact ⟨"securityType2", by unfold enumErr; simp [h1, h2, h3, h4, h5, h6],
      (enumBadAt_names S item).2.2.2.2.2.1.mpr h6⟩
  by_cases h7 : badEnum item.StateCode S.stateCode = true
  · exact ⟨"stateCode", by unfold enumErr; simp [h1, h2, h3, h4, h5, h6, h7],
      (enumBadAt_names S item).2.2.2.2.2.2.mpr h7⟩
  exfalso
  obtain ⟨f, hf⟩ := hbad
  simp only [Bool.not_eq_true] at h1 h2 h3 h4 h5 h6 h7
  exact not_enumBadAt_of_enumOk ⟨h1, h2, h3, h4, h5, h6, h7⟩ f hf

/-- A failing enum `switch` short-circuits `BaseItem.validate`. -/
theorem validate_of_enumErr {S : RefSets} {item : BaseItem} {e : GoError}
    (h : enumErr S item = some e) : item.validate S = some e := by
  unfold BaseItem.validate
  simp [h]

/-- A `BaseItem` whose only populated field is a currency value outside
the sample reference sets. -/
def itemBadCurrency : BaseItem := { BaseItem.zero with Currency := "zigzagzig" }

/-- A `BaseItem` with both codes populated, the exchange code outside
the sample reference sets. -/
def itemBadExchBothCodes : BaseItem :=
  { BaseItem.zero with ExchCode := "zigzagzig", MicCode := "ADRK" }

/-- A `BaseItem` with both codes populated and both values members of
the sample reference sets. -/
def itemBothCodesValid : BaseItem :=
  { BaseItem.zero with ExchCode := "US", MicCode := "ADRK" }

/-- A `BaseItem` whose only populated field is an option type outside
the documented `"Call" | "Put"` values. -/
def itemBadOptionType : BaseItem := { BaseItem.zero with OptionType := "zigzagzig" }

/-- C1 counterexample: option type, listed by the claim among the
membership-tested enumerated fields, is never validated: a `BaseItem`
whose only populated field is an option type outside the documented
`"Call" | "Put"` values builds with a nil error instead of failing with
an invalid-enum error. -/
theorem build_enum_membership_counterexample :
    itemBadOptionType.OptionType ≠ "" ∧
    itemBadOptionType.OptionType ≠ "Call" ∧ itemBadOptionType.OptionType ≠ "Put" ∧
    ((BaseItemBuilder.mk itemBadOptionType).Build sampleSets).2.2 = none := by
  decide

/-- C1 amended: whenever one of the seven membership-tested enumerated
fields of a `BaseItem` (exchange code, MIC code, currency, market-sector
description, security type, security type 2, state code) is populated
with a value outside its reference set, `Build()` fails with an
invalid-enum error naming such a field (the first in source order);
whenever `Build()` succeeds, every populated field among those seven is
a member of its reference set; and option type is not membership-tested:
`Build()`'s outcome is independent of its value. -/
theorem build_enum_membership (S : RefSets) (item : BaseItem) (v : String) :
    ((∃ f, enumBadAt S item f) →
      ∃ f, ((BaseItemBuilder.mk item).Build S).2.2 = some (GoError.invalidEnum f) ∧
        enumBadAt S item f) ∧
    (((BaseItemBuilder.mk item).Build S).2.2 = none → ∀ f, ¬ enumBadAt S item f) ∧
    (((BaseItemBuilder.mk { item with OptionType := v }).Build S).2.2 =
      ((BaseItemBuilder.mk item).Build S).2.2) := by
  refine ⟨?_, ?_, ?_⟩
  · intro hbad
    obtain ⟨f, he, hb⟩ := enumErr_of_bad hbad
    exact ⟨f, validate_of_enumErr he, hb⟩
  · intro hnone
    have h := (validate_none_iff S item).mp hnone
    exact not_enumBadAt_of_enumOk h.1
  · cases item
    rfl

/-- C1 witness: a currency outside the sample sets makes `Build()` fail
with the invalid-enum error for `currency`. -/
theorem build_enum_membership_witness :
    (∃ f, enumBadAt sampleSets itemBadCurrency f) ∧
    ∃ f, ((BaseItemBuilder.mk itemBadCurrency).Build sampleSets).2.2 =
        some (GoError.invalidEnum f) ∧ enumBadAt sampleSets itemBadCurrency f :=
  ⟨⟨"currency", by decide⟩,
   (build_enum_membership sampleSets itemBadCurrency "zigzagzig").1
     ⟨"currency", by decide⟩⟩

/-- C2 counterexample: with exchange code and MIC code both populated
but the exchange code outside its reference set, `Build()` fails with
the invalid-enum error for `exchCode`, not with the mutual-exclusivity
error — the membership guards run first. -/
theorem build_exch_mic_counterexample :
    itemBadExchBothCodes.ExchCode ≠ "" ∧ itemBadExchBothCodes.MicCode ≠ "" ∧
    ((BaseItemBuilder.mk itemBadExchBothCodes).Build sampleSets).2.2 ≠
      some GoError.exchMicConflict ∧
    ((BaseItemBuilder.mk itemBadExchBothCodes).Build sampleSets).2.2 =
      some (GoError.invalidEnum "exchCode") := by
  decide

/-- When some guard of the enum `switch` fails, some populated field is
outside its reference set. -/
theorem not_enumOk_bad {S : RefSets} {item : BaseItem}
    (h : ¬ EnumOk S item) : ∃ f, enumBadAt S item f := by
  by_contra hno
  push_neg at hno
  apply h
  have g1 : badEnum item.ExchCode S.exchCode = false := by
    rw [← Bool.not_eq_true]
    exact fun ht => hno "exchCode" ((enumBadAt_names S item).1.mpr ht)
  have g2 : badEnum item.MicCode S.micCode = false := by
    rw [← Bool.not_eq_true]
    exact fun ht => hno "micCode" ((enumBadAt_names S item).2.1.mpr ht)
  have g3 : badEnum item.Currency S.currency = false := by
    rw [← Bool.not_eq_true]
    exact fun ht => hno "currency" ((enumBadAt_names S item).2.2.1.mpr ht)
  have g4 : badEnum item.MarketSecDes S.marketSecDes = false := by
    rw [← Bool.not_eq_true]
    exact fun ht => hno "marketSecDes" ((enumBadAt_names S item).2.2.2.1.mpr ht)
  have g5 : badEnum item.SecurityType S.securityType = false := by
    rw [← Bool.not_eq_true]
    exact fun ht => hno "securityType" ((enumBadAt_names S item).2.2.2.2.1.mpr ht)
  have g6 : badEnum item.SecurityType2 S.securityType2 = false := by
    rw [← Bool.not_eq_true]
    exact fun ht => hno "securityType2" ((enumBadAt_names S item).2.2.2.2.2.1.mpr ht)
  have g7 : badEnum item.StateCode S.stateCode = false := by
    rw [← Bool.not_eq_true]
    exact fun ht => hno "stateCode" ((enumBadAt_names S item).2.2.2.2.2.2.mpr ht)
  exact ⟨g1, g2, g3, g4, g5, g6, g7⟩

/-- When some guard of the enum `switch` fails, `validate` returns an
invalid-enum error (so never any other kind of error). -/
theorem validate_invalidEnum_of_not_enumOk {S : RefSets} {item : BaseItem}
    (h : ¬ EnumOk S item) :
    ∃ f, item.validate S = some (GoError.invalidEnum f) := by
  obtain ⟨f, he, -⟩ := enumErr_of_bad (not_enumOk_bad h)
  exact ⟨f, validate_of_enumErr he⟩

/-- C2 amended: with exchange code and MIC code both populated,
`Build()` always fails; the error is the mutual-exclusivity one exactly
when every enum membership guard passes (otherwise it is the
invalid-enum error of the first offending field). -/
theorem build_exch_mic_amended (S : RefSets) (item : BaseItem)
    (hx : item.ExchCode ≠ "") (hm : item.MicCode ≠ "") :
    ((BaseItemBuilder.mk item).Build S).2.2 ≠ none ∧
    (((BaseItemBuilder.mk item).Build S).2.2 = some GoError.exchMicConflict ↔
      EnumOk S item) := by
  constructor
  · intro hnone
    have h := (validate_none_iff S item).mp hnone
    exact h.2.1 ⟨hx, hm⟩
  · constructor
    · intro hconf
      by_contra hok
      obtain ⟨f, hf⟩ := validate_invalidEnum_of_not_enumOk hok
      rw [show ((BaseItemBuilder.mk item).Build S).2.2 = item.validate S from rfl,
        hf] at hconf
      exact GoError.noConfusion (Option.some.inj hconf)
    · intro hok
      have he : enumErr S item = none := (enumErr_none_iff S item).mpr hok
      show item.validate S = some GoError.exchMicConflict
      unfold BaseItem.validate
      simp only [he]
      rw [if_pos ⟨hx, hm⟩]

/-- C2 witness: both codes populated with member values fail with the
mutual-exclusivity error; with a non-member exchange code the error is
not the mutual-exclusivity one. -/
theorem build_exch_mic_amended_witness :
    ((BaseItemBuilder.mk itemBothCodesValid).Build sampleSets).2.2 ≠ none ∧
    ((BaseItemBuilder.mk itemBothCodesValid).Build sampleSets).2.2 =
      some GoError.exchMicConflict ∧
    ((BaseItemBuilder.mk itemBadExchBothCodes).Build sampleSets).2.2 ≠
      some GoError.exchMicConflict :=
  ⟨(build_exch_mic_amended sampleSets itemBothCodesValid (by decide) (by decide)).1,
   (build_exch_mic_amended sampleSets itemBothCodesValid (by decide) (by decide)).2.mpr
     (by decide),
   fun hc =>
     absurd ((build_exch_mic_amended sampleSets itemBadExchBothCodes (by decide)
       (by decide)).2.mp hc) (by decide)⟩

/-- A string accepted by the date parser is non-empty. -/
theorem parse_some_ne_empty {s : String} {a : ℕ × ℕ × ℕ}
    (h : parseDateOnly s = some a) : s ≠ "" := by
  intro he
  rw [he] at h
  exact Option.noConfusion h

/-- C3: the numeric `interval.validate` rejects the doubly-open
`[-Inf, +Inf]` interval as `[null, null]`; rejects two finite bounds
with `low > high`; accepts two finite bounds with `low ≤ high`; and
accepts every single-sided interval (one bound finite, the other its
open-ended sentinel). -/
theorem num_interval_validate_cases :
    (numIntervalValidate ⟨GoFloat.negInf, GoFloat.posInf⟩ = some GoError.intervalNullNull) ∧
    (∀ q r : ℚ, r < q →
      numIntervalValidate ⟨GoFloat.fin q, GoFloat.fin r⟩ =
        some (GoError.badNumInterval (GoFloat.fin q) (GoFloat.fin r))) ∧
    (∀ q r : ℚ, q ≤ r →
      numIntervalValidate ⟨GoFloat.fin q, GoFloat.fin r⟩ = none) ∧
    (∀ q : ℚ, numIntervalValidate ⟨GoFloat.negInf, GoFloat.fin q⟩ = none ∧
      numIntervalValidate ⟨GoFloat.fin q, GoFloat.posInf⟩ = none) := by
  refine ⟨rfl, ?_, ?_, ?_⟩
  · intro q r h
    unfold numIntervalValidate
    rw [if_neg (by simp), if_pos (by simpa [GoFloat.lt] using h)]
  · intro q r h
    unfold numIntervalValidate
    rw [if_neg (by simp), if_neg (by simp [GoFloat.lt, not_lt.mpr h])]
  · intro q
    constructor <;> (unfold numIntervalValidate; rw [if_neg (by simp)]; simp [GoFloat.lt])

/-- C3 witness: `[3, 1]` is rejected, `[1, 3]` is accepted. -/
theorem num_interval_validate_witness :
    numIntervalValidate ⟨GoFloat.fin 3, GoFloat.fin 1⟩ =
      some (GoError.badNumInterval (GoFloat.fin 3) (GoFloat.fin 1)) ∧
    numIntervalValidate ⟨GoFloat.fin 1, GoFloat.fin 3⟩ = none :=
  ⟨num_interval_validate_cases.2.1 3 1 (by norm_num),
   num_interval_validate_cases.2.2.1 1 3 (by norm_num)⟩

/-- C4: the date `interval.validate` rejects `["", ""]` as
`[null, null]`; a populated low bound that does not parse yields the
date-format error (before any ordering check, whatever the other
bound); a populated high bound that does not parse — once the low bound
is absent or parses — yields the date-format error; two parsed bounds
with the low date after the high date yield the interval error; a
single-sided interval with one parsed date passes. -/
theorem date_interval_validate_cases :
    (dateIntervalValidate ⟨"", ""⟩ = some GoError.intervalNullNull) ∧
    (∀ lo hi : String, lo ≠ "" → parseDateOnly lo = none →
      dateIntervalValidate ⟨lo, hi⟩ = some (GoError.badDateFormat lo)) ∧
    (∀ lo hi : String, (lo = "" ∨ parseDateOnly lo ≠ none) → hi ≠ "" →
      parseDateOnly hi = none →
      dateIntervalValidate ⟨lo, hi⟩ = some (GoError.badDateFormat hi)) ∧
    (∀ (lo hi : String) (a b : ℕ × ℕ × ℕ), parseDateOnly lo = some a →
      parseDateOnly hi = some b → dateAfter a b = true →
      dateIntervalValidate ⟨lo, hi⟩ = some (GoError.badDateInterval lo hi)) ∧
    (∀ (lo : String) (a : ℕ × ℕ × ℕ), parseDateOnly lo = some a →
      dateIntervalValidate ⟨lo, ""⟩ = none) ∧
    (∀ (hi : String) (b : ℕ × ℕ × ℕ), parseDateOnly hi = some b →
      dateIntervalValidate ⟨"", hi⟩ = none) := by
  refine ⟨rfl, ?_, ?_, ?_, ?_, ?_⟩
  · intro lo hi hlo hp
    unfold dateIntervalValidate
    rw [if_neg (fun h => hlo h.1), if_pos ⟨hlo, hp⟩]
  · intro lo hi hlo hhi hp
    unfold dateIntervalValidate
    rw [if_neg (fun h => hhi h.2), if_neg (by tauto), if_pos ⟨hhi, hp⟩]
  · intro lo hi a b hpl hph hA
    have hlo := parse_some_ne_empty hpl
    have hhi := parse_some_ne_empty hph
    unfold dateIntervalValidate
    rw [if_neg (fun h => hlo h.1), if_neg (by simp [hpl]),
      if_neg (by simp [hph]), if_pos ⟨hlo, hhi, by rw [hpl, hph]; exact hA⟩]
  · intro lo a hp
    have hlo := parse_some_ne_empty hp
    unfold dateIntervalValidate
    rw [if_neg (fun h => hlo h.1), if_neg (by simp [hp]), if_neg (by simp),
      if_neg (by simp)]
  · intro hi b hp
    have hhi := parse_some_ne_empty hp
    unfold dateIntervalValidate
    rw [if_neg (fun h => hhi h.2), if_neg (by simp), if_neg (by simp [hp]),
      if_neg (by simp)]

/-- C4 witness: concrete malformed, inverted, and single-sided date
intervals behave as the theorem states. -/
theorem date_interval_validate_witness :
    dateIntervalValidate ⟨"not-a-date", "2023-01-01"⟩ =
      some (GoError.badDateFormat "not-a-date") ∧
    dateIntervalValidate ⟨"2023-01-01", "zig"⟩ = some (GoError.badDateFormat "zig") ∧
    dateIntervalValidate ⟨"2024-01-01", "2023-01-01"⟩ =
      some (GoError.badDateInterval "2024-01-01" "2023-01-01") ∧
    dateIntervalValidate ⟨"2023-01-01", ""⟩ = none ∧
    dateIntervalValidate ⟨"", "2023-01-01"⟩ = none :=
  ⟨date_interval_validate_cases.2.1 "not-a-date" "2023-01-01" (by decide) (by decide),
   date_interval_validate_cases.2.2.1 "2023-01-01" "zig" (Or.inr (by decide))
     (by decide) (by decide),
   date_interval_validate_cases.2.2.2.1 "2024-01-01" "2023-01-01" (2024, 1, 1)
     (2023, 1, 1) (by decide) (by decide) (by decide),
   date_interval_validate_cases.2.2.2.2.1 "2023-01-01" (2023, 1, 1) (by decide),
   date_interval_validate_cases.2.2.2.2.2 "2023-01-01" (2023, 1, 1) (by decide)⟩

/-- `MappingItem.validate` succeeds exactly when the embedded base item
validates, the identifier type is a member of the ID-type set, and the
`BASE_TICKER` / `ID_EXCH_SYMBOL` conditional requirement holds. -/
theorem mvalidate_none_iff (S : RefSets) (mi : MappingItem) :
    mi.validate S = none ↔
      (mi.base.validate S = none ∧ S.idType mi.idType = true ∧
       ((mi.idType = "BASE_TICKER" ∨ mi.idType = "ID_EXCH_SYMBOL") →
         mi.base.SecurityType2 ≠ "")) := by
  unfold MappingItem.validate
  rcases hB : mi.base.validate S with _ | e
  · simp only [hB]
    by_cases h1 : S.idType mi.idType = true
    · rw [if_neg (by simp [h1])]
      by_cases h2 : (mi.idType = "BASE_TICKER" ∨ mi.idType = "ID_EXCH_SYMBOL") ∧
          mi.base.SecurityType2 = ""
      · rw [if_pos h2]
        constructor
        · intro h; exact Option.noConfusion h
        · rintro ⟨-, -, hreq⟩; exact absurd h2.2 (hreq h2.1)
      · rw [if_neg h2]
        constructor
        · intro _; exact ⟨trivial, h1, fun hor he => h2 ⟨hor, he⟩⟩
        · intro _; rfl
    · rw [if_pos (by simpa using h1)]
      constructor
      · intro h; exact Option.noConfusion h
      · rintro ⟨-, hc, -⟩; exact absurd hc h1
  · simp [hB]

/-- A `BaseItem` with a populated expiration interval and empty (hence
non-`Option`) security type 2. -/
def itemExpirationNoOption : BaseItem :=
  { BaseItem.zero with Expiration := some ⟨"2021-01-01", "2022-01-01"⟩ }

/-- A `BaseItem` with a populated maturity interval and empty (hence
non-`Pool`) security type 2. -/
def itemMaturityNoPool : BaseItem :=
  { BaseItem.zero with Maturity := some ⟨"2021-01-01", "2022-01-01"⟩ }

/-- A `BaseItem` with security type 2 `Option` and a valid expiration
interval. -/
def itemOptionExpiration : BaseItem :=
  { BaseItem.zero with
    SecurityType2 := "Option",
    Expiration := some ⟨"2021-01-01", "2022-01-01"⟩ }

/-- A `BaseItem` with security type 2 `Pool` and a valid maturity
interval. -/
def itemPoolMaturity : BaseItem :=
  { BaseItem.zero with
    SecurityType2 := "Pool",
    Maturity := some ⟨"2021-01-01", "2022-01-01"⟩ }

/-- C5: a populated expiration interval with security type 2 other than
`Option` always makes `Build()` fail, and a populated maturity interval
with security type 2 other than `Pool` always makes `Build()` fail;
conversely, when all other rules pass and each populated
expiration/maturity interval is matched by the required security type
2, `Build()` succeeds. -/
theorem build_expiration_maturity (S : RefSets) (item : BaseItem) :
    (item.Expiration.isSome = true → item.SecurityType2 ≠ "Option" →
      ((BaseItemBuilder.mk item).Build S).2.2 ≠ none) ∧
    (item.Maturity.isSome = true → item.SecurityType2 ≠ "Pool" →
      ((BaseItemBuilder.mk item).Build S).2.2 ≠ none) ∧
    (EnumOk S item → ¬(item.ExchCode ≠ "" ∧ item.MicCode ≠ "") →
      intervalsErr item = none →
      (item.Expiration.isSome = true → item.SecurityType2 = "Option") →
      (item.Maturity.isSome = true → item.SecurityType2 = "Pool") →
      ((BaseItemBuilder.mk item).Build S).2.2 = none) := by
  refine ⟨?_, ?_, ?_⟩
  · intro hE hne hnone
    exact hne (((validate_none_iff S item).mp hnone).2.2.2.1 hE)
  · intro hM hne hnone
    exact hne (((validate_none_iff S item).mp hnone).2.2.2.2 hM)
  · intro h1 h2 h3 h4 h5
    exact (validate_none_iff S item).mpr ⟨h1, h2, h3, h4, h5⟩

/-- C5 witness: expiration without `Option` and maturity without `Pool`
fail; with the matching security type 2 both build successfully. -/
theorem build_expiration_maturity_witness :
    ((BaseItemBuilder.mk itemExpirationNoOption).Build sampleSets).2.2 ≠ none ∧
    ((BaseItemBuilder.mk itemMaturityNoPool).Build sampleSets).2.2 ≠ none ∧
    ((BaseItemBuilder.mk itemOptionExpiration).Build sampleSets).2.2 = none ∧
    ((BaseItemBuilder.mk itemPoolMaturity).Build sampleSets).2.2 = none :=
  ⟨(build_expiration_maturity sampleSets itemExpirationNoOption).1 (by decide) (by decide),
   (build_expiration_maturity sampleSets itemMaturityNoPool).2.1 (by decide) (by decide),
   (build_expiration_maturity sampleSets itemOptionExpiration).2.2 (by decide)
     (by decide) (by decide) (by decide) (by decide),
   (build_expiration_maturity sampleSets itemPoolMaturity).2.2 (by decide)
     (by decide) (by decide) (by decide) (by decide)⟩

/-- The Go zero value `MappingItem{}`. -/
def MappingItem.zero : MappingItem := ⟨BaseItem.zero, "", ""⟩

/-- A mapping builder over `BASE_TICKER` with no security type 2 set. -/
def mbBaseTickerNoST2 : MappingItemBuilder :=
  MappingItem.zero.GetBuilder "BASE_TICKER" "IBM"

/-- A mapping builder over `BASE_TICKER` whose base has security type 2
`Option`. -/
def mbBaseTickerWithST2 : MappingItemBuilder :=
  ⟨⟨{ BaseItem.zero with SecurityType2 := "Option" }⟩,
   ⟨BaseItem.zero, "BASE_TICKER", "IBM"⟩⟩

/-- C6: for a mapping builder whose base item validates, the identifier
type is membership-tested against the ID-type set; and when the type is
`BASE_TICKER` or `ID_EXCH_SYMBOL` (and a member of the set), `Build()`
fails with the missing-`securityType2` error exactly when security
type 2 is empty, and succeeds when it is populated. -/
theorem mapping_build_security_type2 (S : RefSets) (mb : MappingItemBuilder)
    (hbase : mb.base.item.validate S = none) :
    (S.idType mb.item.idType = false →
      (mb.Build S).2.2 = some (GoError.invalidIdType mb.item.idType)) ∧
    (S.idType mb.item.idType = true →
      (mb.item.idType = "BASE_TICKER" ∨ mb.item.idType = "ID_EXCH_SYMBOL") →
      ((mb.base.item.SecurityType2 = "" →
         (mb.Build S).2.2 = some GoError.missingSecurityType2) ∧
       (mb.base.item.SecurityType2 ≠ "" → (mb.Build S).2.2 = none))) := by
  constructor
  · intro hid
    show MappingItem.validate S _ = _
    unfold MappingItem.validate
    simp only [hbase]
    rw [if_pos (by simp [hid])]
  · intro hid hty
    constructor
    · intro hs2
      show MappingItem.validate S _ = _
      unfold MappingItem.validate
      simp only [hbase]
      rw [if_neg (by simp [hid]), if_pos ⟨hty, hs2⟩]
    · intro hs2
      refine (mvalidate_none_iff S _).mpr ⟨hbase, hid, fun _ => hs2⟩

/-- C6 witness: `BASE_TICKER` with empty security type 2 fails with the
missing-field error; with security type 2 populated it builds. -/
theorem mapping_build_security_type2_witness :
    (mbBaseTickerNoST2.Build sampleSets).2.2 = some GoError.missingSecurityType2 ∧
    (mbBaseTickerWithST2.Build sampleSets).2.2 = none :=
  ⟨((mapping_build_security_type2 sampleSets mbBaseTickerNoST2 (by decide)).2
      (by decide) (Or.inl (by decide))).1 (by decide),
   ((mapping_build_security_type2 sampleSets mbBaseTickerWithST2 (by decide)).2
      (by decide) (Or.inl (by decide))).2 (by decide)⟩

/-- C7 counterexample: on a failing build the returned item is the
builder's accumulated item (here with its bad currency still set), not
the zero-value item the claim states. -/
theorem build_zero_value_counterexample :
    ((BaseItemBuilder.mk itemBadCurrency).Build sampleSets).2.2 ≠ none ∧
    ((BaseItemBuilder.mk itemBadCurrency).Build sampleSets).2.1 ≠ BaseItem.zero ∧
    ((BaseItemBuilder.mk itemBadCurrency).Build sampleSets).2.1 = itemBadCurrency := by
  decide

/-- C7 amended: `Build()` returns the accumulated item — on success and
on failure alike — together with a nil error exactly when every
validation rule passes (a single first-failing-rule error otherwise),
for both builders. -/
theorem build_returns_accumulated (S : RefSets) (b : BaseItemBuilder)
    (m : MappingItemBuilder) :
    ((b.Build S).2.1 = b.item) ∧
    ((b.Build S).2.2 = none ↔ ValidOk S b.item) ∧
    ((m.Build S).2.1 = { m.item with base := m.base.item }) ∧
    ((m.Build S).2.2 = none ↔
      (ValidOk S m.base.item ∧ S.idType m.item.idType = true ∧
       ((m.item.idType = "BASE_TICKER" ∨ m.item.idType = "ID_EXCH_SYMBOL") →
         m.base.item.SecurityType2 ≠ ""))) := by
  refine ⟨rfl, validate_none_iff S b.item, rfl, ?_⟩
  rw [show (m.Build S).2.2 = MappingItem.validate S { m.item with base := m.base.item }
    from rfl, mvalidate_none_iff, validate_none_iff]

/-- C7 witness: the amended statement evaluated on a concrete failing
builder: the accumulated item comes back unchanged. -/
theorem build_returns_accumulated_witness :
    ((BaseItemBuilder.mk itemBadCurrency).Build sampleSets).2.1 = itemBadCurrency :=
  (build_returns_accumulated sampleSets (BaseItemBuilder.mk itemBadCurrency)
    mbBaseTickerNoST2).1

/-- A transport stub used to evaluate the pagination theorems. -/
def constSearchTransport : SearchTransport := fun _ _ _ => (SearchResponse.zero, none)

/-- A transport stub used to evaluate the pagination theorems. -/
def constFilterTransport : FilterTransport := fun _ _ _ => (FilterResponse.zero, none)

/-- A search response carrying a non-empty continuation cursor. -/
def pagedSearchResponse : SearchResponse :=
  { SearchResponse.zero with
    NextHash := "hash1",
    baseitem := itemOptionExpiration,
    query := "ibm" }

/-- C8: with an empty cursor, `Next()` returns the zero response and
the no-more-results error for every transport (so no request is made:
the result does not depend on the transport); with a non-empty cursor,
`Next()` replays `Search`/`Filter` on the retained base item and query
with the cursor as the start parameter; and `Search`/`Filter` retain
the originating item and query on their responses. -/
theorem response_next_pagination (t t2 : SearchTransport) (ft ft2 : FilterTransport)
    (r : SearchResponse) (fr : FilterResponse) (item : BaseItem) (q st : String) :
    (r.NextHash = "" →
      r.Next t = (SearchResponse.zero, some GoError.noMoreResults) ∧
      r.Next t = r.Next t2) ∧
    (r.NextHash ≠ "" → r.Next t = r.baseitem.Search t r.query r.NextHash) ∧
    (fr.search.NextHash = "" →
      fr.Next ft = (FilterResponse.zero, some GoError.noMoreResults) ∧
      fr.Next ft = fr.Next ft2) ∧
    (fr.search.NextHash ≠ "" →
      fr.Next ft = fr.search.baseitem.Filter ft fr.search.query fr.search.NextHash) ∧
    ((item.Search t q st).1.baseitem = item ∧ (item.Search t q st).1.query = q) ∧
    ((item.Filter ft q st).1.search.baseitem = item ∧
      (item.Filter ft q st).1.search.query = q) := by
  refine ⟨?_, ?_, ?_, ?_, ⟨rfl, rfl⟩, ⟨rfl, rfl⟩⟩
  · intro h
    unfold SearchResponse.Next
    rw [if_pos h]
    exact ⟨rfl, by rw [if_pos h]⟩
  · intro h
    unfold SearchResponse.Next
    rw [if_neg h]
  · intro h
    unfold FilterResponse.Next
    rw [if_pos h]
    exact ⟨rfl, by rw [if_pos h]⟩
  · intro h
    unfold FilterResponse.Next
    rw [if_neg h]

/-- C8 witness: an exhausted response fails with no-more-results under
any transport stub; a cursor-carrying response replays the search. -/
theorem response_next_pagination_witness :
    SearchResponse.zero.Next constSearchTransport =
      (SearchResponse.zero, some GoError.noMoreResults) ∧
    pagedSearchResponse.Next constSearchTransport =
      itemOptionExpiration.Search constSearchTransport "ibm" "hash1" := by
  constructor
  · exact ((response_next_pagination constSearchTransport constSearchTransport
      constFilterTransport constFilterTransport SearchResponse.zero
      FilterResponse.zero BaseItem.zero "" "").1 rfl).1
  · have h := (response_next_pagination constSearchTransport constSearchTransport
      constFilterTransport constFilterTransport pagedSearchResponse
      FilterResponse.zero BaseItem.zero "" "").2.1 (by decide)
    simpa [pagedSearchResponse] using h

/-- C9: the zero-value `BaseItem` passes `validate` for every choice of
reference sets — empty enumerated fields skip the membership guards and
nil intervals skip interval validation — so a fresh builder with no
setters called builds with a nil error. -/
theorem zero_item_builds (S : RefSets) :
    BaseItem.zero.validate S = none ∧
    (BaseItem.zero.GetBuilder.Build S).2.2 = none :=
  ⟨rfl, rfl⟩

/-- C10: `BaseItemBuilder.Build` leaves the builder's accumulated state
unchanged, and for both builders an immediate second `Build()` returns
the same item and the same error as the first. -/
theorem build_repeatable (S : RefSets) (b : BaseItemBuilder) (m : MappingItemBuilder) :
    ((b.Build S).1 = b) ∧
    (((b.Build S).1.Build S).2 = (b.Build S).2) ∧
    (((m.Build S).1.Build S).2.1 = (m.Build S).2.1) ∧
    (((m.Build S).1.Build S).2.2 = (m.Build S).2.2) :=
  ⟨rfl, rfl, rfl, rfl⟩

end OpenFIGI
